import Mathlib

/-!
Verification of the costing engine of `dockfinity-costing-app` (`src/calc.ts`,
`src/types.ts`).  JavaScript numbers are modelled as exact rationals (`ℚ`);
JavaScript `Math.round` is `⌊x + 1/2⌋`.  Optional fields (`circleRatePerKg?`,
`induction?`) are modelled as `Option`.  The definitions below transcribe the
source line by line; the `let`-bound intermediates of `calc.ts` become named
top-level definitions so that theorems can speak about them directly.
-/

namespace Dockfinity

/-- Data model from `types.ts`: scrap-return spec. -/
structure ScrapReturn where
  enabled : Bool
  ratePerKg : ℚ
deriving DecidableEq

/-- Data model from `types.ts`: press stage of one part. -/
structure PressStage where
  ratePerKg : ℚ
  actualWastagePct : ℚ
  jobWastagePct : ℚ
  tutPct : ℚ
  scrapReturn : ScrapReturn
deriving DecidableEq

/-- Data model from `types.ts`: optional induction stage of one part. -/
structure InductionStage where
  enabled : Bool
  ratePerKg : ℚ
deriving DecidableEq

/-- Data model from `types.ts`: polish stage (shared by box and cover). -/
structure PolishStage where
  ratePerKg : ℚ
  wastagePct : ℚ
  tutPct : ℚ
  scrapReturn : ScrapReturn
deriving DecidableEq

/-- Data model from `types.ts`: packing stage (batch level). -/
structure PackingStage where
  packingRatePerKg : ℚ
  tutPct : ℚ
  scrapReturn : ScrapReturn
deriving DecidableEq

/-- Data model from `types.ts`: polybag geometry and rate. -/
structure Polybag where
  sizeIn : ℚ
  gauge : ℚ
  ratePerKg : ℚ
deriving DecidableEq

/-- Data model from `types.ts`: pipe (tube) geometry and rate. -/
structure Pipe where
  widthIn : ℚ
  lengthIn : ℚ
  gauge : ℚ
  pcsPerPipe : ℚ
  ratePerKg : ℚ
deriving DecidableEq

/-- Data model from `types.ts`: bag profile (polybag + pipe). -/
structure BagProfile where
  name : String
  polybag : Polybag
  pipe : Pipe
deriving DecidableEq

/-- Data model from `types.ts`: optional kunda fastener. -/
structure KundaSpec where
  enabled : Bool
  weightG : ℚ
  ratePerKg : ℚ
deriving DecidableEq

/-- Data model from `types.ts`: one stamped part (box or cover).
`circleRatePerKg` and `induction` are optional in the source. -/
structure PartSpec where
  label : String
  circleSizeIn : ℚ
  thicknessMm : ℚ
  circleRatePerKg : Option ℚ
  press : PressStage
  induction : Option InductionStage
deriving DecidableEq

/-- Data model from `types.ts`: a full item. -/
structure Item where
  id : String
  name : String
  box : PartSpec
  cover : PartSpec
  kunda : KundaSpec
  bagProfile : BagProfile
  polish : PolishStage
  packing : PackingStage
deriving DecidableEq

/-- Data model from `types.ts`: global settings. -/
structure AppSettings where
  circleBaseRate : ℚ
  circleAddPerKg : ℚ
  circleExtraAddPerKg : ℚ
  bagStandardKg : ℚ
deriving DecidableEq

/-- `perPc` block of `CalcResult` in `types.ts`. -/
structure PerPc where
  boxG : ℚ
  coverG : ℚ
  kundaG : ℚ
  polybagG : ℚ
  pipeG : ℚ
  totalPackedG : ℚ
deriving DecidableEq

/-- `debug` block of `CalcResult` in `types.ts`. -/
structure DebugInfo where
  bagKg : ℚ
  pcs : ℚ
  circleKgInTotal : ℚ
  circleCost : ℚ
  pressCost : ℚ
  inductionCost : ℚ
  polishCost : ℚ
  packingCost : ℚ
  kundaCost : ℚ
  plasticCost : ℚ
  scrapCredit : ℚ
  finalCost : ℚ
deriving DecidableEq

/-- `CalcResult` from `types.ts`. -/
structure CalcResult where
  itemId : String
  itemName : String
  perPc : PerPc
  pcsPerBag : ℚ
  perKgRate : ℚ
  perPcRate : ℚ
  debug : DebugInfo
deriving DecidableEq

/-- `effectiveThicknessMm` from `calc.ts`: thickness input gets +0.003 tolerance. -/
def effectiveThicknessMm (inputMm : ℚ) : ℚ :=
  inputMm + 3 / 1000

/-- `circleWeightG` from `calc.ts`: base grams `(263/254)·D²` scaled by
`effectiveThickness / 0.263`. -/
def circleWeightG (circleIn thicknessMm : ℚ) : ℚ :=
  ((263 : ℚ) / 254) * circleIn * circleIn * (effectiveThicknessMm thicknessMm / (263 / 1000))

/-- `polybagWeightG` from `calc.ts`: `size·size·gauge/3300`. -/
def polybagWeightG (sizeIn gauge : ℚ) : ℚ :=
  sizeIn * sizeIn * gauge / 3300

/-- `pipeWeightG` from `calc.ts`: `width·length·gauge/3300`. -/
def pipeWeightG (widthIn lengthIn gauge : ℚ) : ℚ :=
  widthIn * lengthIn * gauge / 3300

/-- `r2` from `calc.ts`: `Math.round(n*100)/100` (JS rounds half towards +∞). -/
def r2 (n : ℚ) : ℚ :=
  (⌊n * 100 + 1 / 2⌋ : ℚ) / 100

/-- `r3` from `calc.ts`: `Math.round(n*1000)/1000`. -/
def r3 (n : ℚ) : ℚ :=
  (⌊n * 1000 + 1 / 2⌋ : ℚ) / 1000

/-- `pct` from `calc.ts`. -/
def pct (x : ℚ) : ℚ := x / 100

/-- `StageFlow` from `calc.ts`. -/
structure StageFlow where
  circleKgIn : ℚ
  kalaKgOut : ℚ
  polishKgOut : ℚ
  packedKgOut : ℚ
  scrapKg : ℚ
  scrapCredit : ℚ
  costPress : ℚ
  costPolish : ℚ
  costInduction : ℚ
deriving DecidableEq

/-- Components block of `PartCostResult` from `calc.ts`. -/
structure PartComponents where
  circleCost : ℚ
  pressCharge : ℚ
  inductionCharge : ℚ
  polishCharge : ℚ
  scrapCreditPress : ℚ
  scrapCreditPolish : ℚ
  scrapCreditPacking : ℚ
deriving DecidableEq

/-- `PartCostResult` from `calc.ts`. -/
structure PartCostResult where
  flow : StageFlow
  partCostExcludingFinalPackingCharge : ℚ
  partRatePerKgPacked : ℚ
  components : PartComponents
deriving DecidableEq

/-! Intermediates of `computePartForwardCost` (`calc.ts` lines 101–163),
each `let` binding as a named definition of the same arguments. -/

/-- `packingInputKg = requiredPackedKg / (1 - packTutP)` (`calc.ts` line 102). -/
def packingInputKg (requiredPackedKg : ℚ) (packing : PackingStage) : ℚ :=
  requiredPackedKg / (1 - pct packing.tutPct)

/-- `packingTutKg = packingInputKg - requiredPackedKg` (`calc.ts` line 103). -/
def packingTutKg (requiredPackedKg : ℚ) (packing : PackingStage) : ℚ :=
  packingInputKg requiredPackedKg packing - requiredPackedKg

/-- `polishInputKalaKg` (`calc.ts` line 109). -/
def polishInputKalaKg (requiredPackedKg : ℚ) (polish : PolishStage) (packing : PackingStage) : ℚ :=
  packingInputKg requiredPackedKg packing / ((1 - pct polish.tutPct) * (1 - pct polish.wastagePct))

/-- `polishTutKg` (`calc.ts` line 110). -/
def polishTutKg (requiredPackedKg : ℚ) (polish : PolishStage) (packing : PackingStage) : ℚ :=
  polishInputKalaKg requiredPackedKg polish packing * pct polish.tutPct

/-- `polishDeliveredKg` (`calc.ts` line 112). -/
def polishDeliveredKg (requiredPackedKg : ℚ) (polish : PolishStage) (packing : PackingStage) : ℚ :=
  polishInputKalaKg requiredPackedKg polish packing * (1 - pct polish.tutPct) * (1 - pct polish.wastagePct)

/-- `pressInputCircleKg` (`calc.ts` line 119). -/
def pressInputCircleKg (requiredPackedKg : ℚ) (press : PressStage) (polish : PolishStage)
    (packing : PackingStage) : ℚ :=
  polishInputKalaKg requiredPackedKg polish packing /
    ((1 - pct press.tutPct) * (1 - pct press.jobWastagePct))

/-- `pressTutKg` (`calc.ts` line 120). -/
def pressTutKg (requiredPackedKg : ℚ) (press : PressStage) (polish : PolishStage)
    (packing : PackingStage) : ℚ :=
  pressInputCircleKg requiredPackedKg press polish packing * pct press.tutPct

/-- `pressDeliveredKalaKg` (`calc.ts` line 121). -/
def pressDeliveredKalaKg (requiredPackedKg : ℚ) (press : PressStage) (polish : PolishStage)
    (packing : PackingStage) : ℚ :=
  pressInputCircleKg requiredPackedKg press polish packing *
    (1 - pct press.tutPct) * (1 - pct press.jobWastagePct)

/-- `inductionEnabled = !!part.induction?.enabled` (`calc.ts` line 133). -/
def inductionEnabled (part : PartSpec) : Bool :=
  (part.induction.map (·.enabled)).getD false

/-- `inductionRate = part.induction?.ratePerKg ?? 0` (`calc.ts` line 134). -/
def inductionRate (part : PartSpec) : ℚ :=
  (part.induction.map (·.ratePerKg)).getD 0

/-- `inductionCharge` (`calc.ts` lines 135–138): charged on delivered kala when
enabled and the rate is positive, else 0. -/
def inductionCharge (requiredPackedKg : ℚ) (part : PartSpec) (polish : PolishStage)
    (packing : PackingStage) : ℚ :=
  if inductionEnabled part = true ∧ 0 < inductionRate part then
    pressDeliveredKalaKg requiredPackedKg part.press polish packing * inductionRate part
  else 0

/-- `computePartForwardCost` (`calc.ts` lines 88–191). -/
def computePartForwardCost (requiredPackedKg : ℚ) (part : PartSpec) (polish : PolishStage)
    (packing : PackingStage) (circleRatePerKg : ℚ) : PartCostResult :=
  let press := part.press
  let circleCost := pressInputCircleKg requiredPackedKg press polish packing * circleRatePerKg
  let pressCharge := pressDeliveredKalaKg requiredPackedKg press polish packing * press.ratePerKg
  let indCharge := inductionCharge requiredPackedKg part polish packing
  let polishCharge := polishDeliveredKg requiredPackedKg polish packing * polish.ratePerKg
  let scrapCreditPress :=
    if press.scrapReturn.enabled then
      pressTutKg requiredPackedKg press polish packing * press.scrapReturn.ratePerKg
    else 0
  let scrapCreditPolish :=
    if polish.scrapReturn.enabled then
      polishTutKg requiredPackedKg polish packing * polish.scrapReturn.ratePerKg
    else 0
  let scrapCreditPacking :=
    if packing.scrapReturn.enabled then
      packingTutKg requiredPackedKg packing * packing.scrapReturn.ratePerKg
    else 0
  let scrapCreditTotal := scrapCreditPress + scrapCreditPolish + scrapCreditPacking
  let scrapKgTotal :=
    pressTutKg requiredPackedKg press polish packing +
    polishTutKg requiredPackedKg polish packing +
    packingTutKg requiredPackedKg packing
  let partCost := circleCost + pressCharge + indCharge + polishCharge - scrapCreditTotal
  { flow :=
      { circleKgIn := pressInputCircleKg requiredPackedKg press polish packing
        kalaKgOut := pressDeliveredKalaKg requiredPackedKg press polish packing
        polishKgOut := polishDeliveredKg requiredPackedKg polish packing
        packedKgOut := requiredPackedKg
        scrapKg := scrapKgTotal
        scrapCredit := scrapCreditTotal
        costPress := circleCost + pressCharge
        costPolish := polishCharge
        costInduction := indCharge }
    partCostExcludingFinalPackingCharge := partCost
    partRatePerKgPacked := partCost / requiredPackedKg
    components :=
      { circleCost := circleCost
        pressCharge := pressCharge
        inductionCharge := indCharge
        polishCharge := polishCharge
        scrapCreditPress := scrapCreditPress
        scrapCreditPolish := scrapCreditPolish
        scrapCreditPacking := scrapCreditPacking } }

/-- `fallbackCircleRate` (`calc.ts` lines 193–199); `x || 0` on a number is the
identity, so the sum is taken directly. -/
def fallbackCircleRate (settings : AppSettings) : ℚ :=
  settings.circleBaseRate + settings.circleAddPerKg + settings.circleExtraAddPerKg

/-- `resolvePartCircleRatePerKg` (`calc.ts` lines 201–207): the explicit rate
wins when present and positive, else the settings fallback. -/
def resolvePartCircleRatePerKg (part : PartSpec) (settings : AppSettings) : ℚ :=
  match part.circleRatePerKg with
  | some explicit => if 0 < explicit then explicit else fallbackCircleRate settings
  | none => fallbackCircleRate settings

/-! Intermediates of `calculate` (`calc.ts` lines 209–293), each `let` binding
as a named definition of `item` (and `settings` where the source uses it). -/

/-- `boxCircleG` (`calc.ts` line 215). -/
def boxCircleG (item : Item) : ℚ :=
  circleWeightG item.box.circleSizeIn item.box.thicknessMm

/-- `coverCircleG` (`calc.ts` line 216). -/
def coverCircleG (item : Item) : ℚ :=
  circleWeightG item.cover.circleSizeIn item.cover.thicknessMm

/-- `boxAfterPressG` (`calc.ts` line 218). -/
def boxAfterPressG (item : Item) : ℚ :=
  boxCircleG item * (1 - pct item.box.press.actualWastagePct)

/-- `coverAfterPressG` (`calc.ts` line 219). -/
def coverAfterPressG (item : Item) : ℚ :=
  coverCircleG item * (1 - pct item.cover.press.actualWastagePct)

/-- `boxAfterPolishG` (`calc.ts` line 221). -/
def boxAfterPolishG (item : Item) : ℚ :=
  boxAfterPressG item * (1 - pct item.polish.wastagePct)

/-- `coverAfterPolishG` (`calc.ts` line 222). -/
def coverAfterPolishG (item : Item) : ℚ :=
  coverAfterPressG item * (1 - pct item.polish.wastagePct)

/-- `kundaG` (`calc.ts` line 224). -/
def kundaG (item : Item) : ℚ :=
  if item.kunda.enabled then item.kunda.weightG else 0

/-- `polybagG` (`calc.ts` line 225). -/
def polybagG (item : Item) : ℚ :=
  polybagWeightG item.bagProfile.polybag.sizeIn item.bagProfile.polybag.gauge

/-- `pipePerPcG` (`calc.ts` lines 226–228). -/
def pipePerPcG (item : Item) : ℚ :=
  pipeWeightG item.bagProfile.pipe.widthIn item.bagProfile.pipe.lengthIn
      item.bagProfile.pipe.gauge /
    item.bagProfile.pipe.pcsPerPipe

/-- `totalPackedG` (`calc.ts` line 230). -/
def totalPackedG (item : Item) : ℚ :=
  boxAfterPolishG item + coverAfterPolishG item + kundaG item + polybagG item + pipePerPcG item

/-- `pcsPerBag = bagKg * 1000 / totalPackedG` (`calc.ts` line 232); `pcs` is the
same value (line 233). -/
def pcs (item : Item) (settings : AppSettings) : ℚ :=
  settings.bagStandardKg * 1000 / totalPackedG item

/-- `totalBoxKgPacked` (`calc.ts` line 236). -/
def totalBoxKgPacked (item : Item) (settings : AppSettings) : ℚ :=
  pcs item settings * boxAfterPolishG item / 1000

/-- `totalCoverKgPacked` (`calc.ts` line 237). -/
def totalCoverKgPacked (item : Item) (settings : AppSettings) : ℚ :=
  pcs item settings * coverAfterPolishG item / 1000

/-- `boxCircleRate` (`calc.ts` line 242). -/
def boxCircleRate (item : Item) (settings : AppSettings) : ℚ :=
  resolvePartCircleRatePerKg item.box settings

/-- `coverCircleRate` (`calc.ts` line 243). -/
def coverCircleRate (item : Item) (settings : AppSettings) : ℚ :=
  resolvePartCircleRatePerKg item.cover settings

/-- `boxCostRes` (`calc.ts` lines 245–251). -/
def boxCostRes (item : Item) (settings : AppSettings) : PartCostResult :=
  computePartForwardCost (totalBoxKgPacked item settings) item.box item.polish item.packing
    (boxCircleRate item settings)

/-- `coverCostRes` (`calc.ts` lines 253–259). -/
def coverCostRes (item : Item) (settings : AppSettings) : PartCostResult :=
  computePartForwardCost (totalCoverKgPacked item settings) item.cover item.polish item.packing
    (coverCircleRate item settings)

/-- `boxCost` (`calc.ts` line 261). -/
def boxCost (item : Item) (settings : AppSettings) : ℚ :=
  (boxCostRes item settings).partCostExcludingFinalPackingCharge

/-- `coverCost` (`calc.ts` line 262). -/
def coverCost (item : Item) (settings : AppSettings) : ℚ :=
  (coverCostRes item settings).partCostExcludingFinalPackingCharge

/-- `kundaKg` (`calc.ts` line 265). -/
def kundaKg (item : Item) (settings : AppSettings) : ℚ :=
  pcs item settings * kundaG item / 1000

/-- `kundaCost` (`calc.ts` line 266). -/
def kundaCost (item : Item) (settings : AppSettings) : ℚ :=
  if item.kunda.enabled then kundaKg item settings * item.kunda.ratePerKg else 0

/-- `polybagKg` (`calc.ts` line 269). -/
def polybagKg (item : Item) (settings : AppSettings) : ℚ :=
  pcs item settings * polybagG item / 1000

/-- `pipeKg` (`calc.ts` line 270). -/
def pipeKg (item : Item) (settings : AppSettings) : ℚ :=
  pcs item settings * pipePerPcG item / 1000

/-- `plasticCost` (`calc.ts` lines 271–273). -/
def plasticCost (item : Item) (settings : AppSettings) : ℚ :=
  polybagKg item settings * item.bagProfile.polybag.ratePerKg +
    pipeKg item settings * item.bagProfile.pipe.ratePerKg

/-- `packingCost = bagKg * packingRatePerKg`, applied once (`calc.ts` line 276). -/
def packingCost (item : Item) (settings : AppSettings) : ℚ :=
  settings.bagStandardKg * item.packing.packingRatePerKg

/-- `circleCost` debug total (`calc.ts` line 279). -/
def circleCostTotal (item : Item) (settings : AppSettings) : ℚ :=
  (boxCostRes item settings).components.circleCost +
    (coverCostRes item settings).components.circleCost

/-- `pressCost` debug total (`calc.ts` line 280). -/
def pressCostTotal (item : Item) (settings : AppSettings) : ℚ :=
  (boxCostRes item settings).components.pressCharge +
    (coverCostRes item settings).components.pressCharge

/-- `inductionCost` debug total (`calc.ts` line 281). -/
def inductionCostTotal (item : Item) (settings : AppSettings) : ℚ :=
  (boxCostRes item settings).components.inductionCharge +
    (coverCostRes item settings).components.inductionCharge

/-- `polishCost` debug total (`calc.ts` line 282). -/
def polishCostTotal (item : Item) (settings : AppSettings) : ℚ :=
  (boxCostRes item settings).components.polishCharge +
    (coverCostRes item settings).components.polishCharge

/-- `scrapCredit` debug total (`calc.ts` line 283). -/
def scrapCreditTotal (item : Item) (settings : AppSettings) : ℚ :=
  (boxCostRes item settings).flow.scrapCredit + (coverCostRes item settings).flow.scrapCredit

/-- `finalCost` (`calc.ts` lines 285–290). -/
def finalCost (item : Item) (settings : AppSettings) : ℚ :=
  boxCost item settings + coverCost item settings + kundaCost item settings +
    plasticCost item settings + packingCost item settings

/-- `perKgRate = finalCost / bagKg` (`calc.ts` line 292). -/
def perKgRate (item : Item) (settings : AppSettings) : ℚ :=
  finalCost item settings / settings.bagStandardKg

/-- `perPcRate = perKgRate * (totalPackedG / 1000)` (`calc.ts` line 293). -/
def perPcRate (item : Item) (settings : AppSettings) : ℚ :=
  perKgRate item settings * (totalPackedG item / 1000)

/-- `calculate` (`calc.ts` lines 209–329): the full result record, rounding
(`r2`/`r3`) applied only to the emitted fields. -/
def calculate (item : Item) (settings : AppSettings) : CalcResult :=
  { itemId := item.id
    itemName := item.name
    perPc :=
      { boxG := r2 (boxAfterPolishG item)
        coverG := r2 (coverAfterPolishG item)
        kundaG := r2 (kundaG item)
        polybagG := r2 (polybagG item)
        pipeG := r2 (pipePerPcG item)
        totalPackedG := r2 (totalPackedG item) }
    pcsPerBag := r2 (pcs item settings)
    perKgRate := r2 (perKgRate item settings)
    perPcRate := r2 (perPcRate item settings)
    debug :=
      { bagKg := settings.bagStandardKg
        pcs := r3 (pcs item settings)
        circleKgInTotal :=
          r3 ((boxCostRes item settings).flow.circleKgIn +
            (coverCostRes item settings).flow.circleKgIn)
        circleCost := r2 (circleCostTotal item settings)
        pressCost := r2 (pressCostTotal item settings)
        inductionCost := r2 (inductionCostTotal item settings)
        polishCost := r2 (polishCostTotal item settings)
        packingCost := r2 (packingCost item settings)
        kundaCost := r2 (kundaCost item settings)
        plasticCost := r2 (plasticCost item settings)
        scrapCredit := r2 (scrapCreditTotal item settings)
        finalCost := r2 (finalCost item settings) } }

/-! Concrete inputs used by witnesses and counterexamples. -/

/-- Global settings with the seed defaults (170 + 5 circle rate, 80 kg bag). -/
def settingsA : AppSettings :=
  { circleBaseRate := 170, circleAddPerKg := 5, circleExtraAddPerKg := 0, bagStandardKg := 80 }

/-- A representative item: 7-inch box, 5.5-inch cover, 0.26 mm sheet, seed
stage percentages and rates. -/
def itemA : Item :=
  { id := "itA", name := "base item"
    box :=
      { label := "box", circleSizeIn := 7, thicknessMm := 26/100, circleRatePerKg := none
        press :=
          { ratePerKg := 20, actualWastagePct := 4, jobWastagePct := 8, tutPct := 3
            scrapReturn := { enabled := true, ratePerKg := 50 } }
        induction := none }
    cover :=
      { label := "cover", circleSizeIn := 11/2, thicknessMm := 26/100, circleRatePerKg := none
        press :=
          { ratePerKg := 20, actualWastagePct := 4, jobWastagePct := 8, tutPct := 3
            scrapReturn := { enabled := true, ratePerKg := 50 } }
        induction := none }
    kunda := { enabled := true, weightG := 5, ratePerKg := 100 }
    bagProfile :=
      { name := "heavy"
        polybag := { sizeIn := 8, gauge := 225, ratePerKg := 135 }
        pipe := { widthIn := 7, lengthIn := 25, gauge := 225, pcsPerPipe := 8, ratePerKg := 135 } }
    polish :=
      { ratePerKg := 13, wastagePct := 5, tutPct := 2
        scrapReturn := { enabled := true, ratePerKg := 50 } }
    packing :=
      { packingRatePerKg := 2, tutPct := 1
        scrapReturn := { enabled := true, ratePerKg := 50 } } }

/-- `itemA` with packing tut at 100 %: the packing stage's combined loss
fraction is exactly 1, the situation the spec calls a domain error. -/
def itemC1 : Item :=
  { itemA with
    packing :=
      { packingRatePerKg := 2, tutPct := 100
        scrapReturn := { enabled := true, ratePerKg := 50 } } }

/-- Unit rate used by `itemC5`: chosen so that each cost component of
`itemC5` comes out to exactly 10.004 currency units. -/
def rC5 : ℚ := 132823108 / 1052000000

/-- Polybag/pipe rate used by `itemC5`: each plastic component comes out to
exactly 5.002 currency units. -/
def rpC5 : ℚ := 66411554 / 5080000

/-- A valid item (positive dimensions and rates, all percentages 0) whose six
nonzero cost components each equal 10.004, so each rounds down to 10.00 while
their exact sum 50.02 rounds to itself. -/
def itemC5 : Item :=
  { id := "itC5", name := "tolerance item"
    box :=
      { label := "box", circleSizeIn := 1, thicknessMm := 26/100, circleRatePerKg := some rC5
        press :=
          { ratePerKg := rC5, actualWastagePct := 0, jobWastagePct := 0, tutPct := 0
            scrapReturn := { enabled := false, ratePerKg := 50 } }
        induction := none }
    cover :=
      { label := "cover", circleSizeIn := 1, thicknessMm := 26/100, circleRatePerKg := some rC5
        press :=
          { ratePerKg := rC5, actualWastagePct := 0, jobWastagePct := 0, tutPct := 0
            scrapReturn := { enabled := false, ratePerKg := 50 } }
        induction := none }
    kunda := { enabled := false, weightG := 5, ratePerKg := 100 }
    bagProfile :=
      { name := "custom"
        polybag := { sizeIn := 1, gauge := 33, ratePerKg := rpC5 }
        pipe := { widthIn := 1, lengthIn := 1, gauge := 33, pcsPerPipe := 1, ratePerKg := rpC5 } }
    polish :=
      { ratePerKg := rC5, wastagePct := 0, tutPct := 0
        scrapReturn := { enabled := false, ratePerKg := 50 } }
    packing :=
      { packingRatePerKg := 10004/80000, tutPct := 0
        scrapReturn := { enabled := false, ratePerKg := 50 } } }

/-- `itemA` with every unit rate, tut/job-wastage percentage, scrap-return and
circle-rate field changed, but all geometry and mass-affecting fields kept. -/
def itemB : Item :=
  { id := "itB", name := "rates changed"
    box :=
      { label := "box", circleSizeIn := 7, thicknessMm := 26/100, circleRatePerKg := some 210
        press :=
          { ratePerKg := 37, actualWastagePct := 4, jobWastagePct := 11, tutPct := 9
            scrapReturn := { enabled := false, ratePerKg := 61 } }
        induction := some { enabled := true, ratePerKg := 12 } }
    cover :=
      { label := "cover", circleSizeIn := 11/2, thicknessMm := 26/100, circleRatePerKg := some 190
        press :=
          { ratePerKg := 23, actualWastagePct := 4, jobWastagePct := 2, tutPct := 7
            scrapReturn := { enabled := true, ratePerKg := 44 } }
        induction := none }
    kunda := { enabled := true, weightG := 5, ratePerKg := 260 }
    bagProfile :=
      { name := "heavy"
        polybag := { sizeIn := 8, gauge := 225, ratePerKg := 151 }
        pipe := { widthIn := 7, lengthIn := 25, gauge := 225, pcsPerPipe := 8, ratePerKg := 149 } }
    polish :=
      { ratePerKg := 19, wastagePct := 5, tutPct := 6
        scrapReturn := { enabled := false, ratePerKg := 48 } }
    packing :=
      { packingRatePerKg := 7, tutPct := 4
        scrapReturn := { enabled := false, ratePerKg := 52 } } }

/-- Settings agreeing with `settingsA` on `bagStandardKg` only. -/
def settingsB : AppSettings :=
  { circleBaseRate := 260, circleAddPerKg := 11, circleExtraAddPerKg := 5, bagStandardKg := 80 }

/-! Helper lemmas shared by several claims. -/

/-- Evaluate `r2` once the enclosing integer of `n·100 + 1/2` is known. -/
lemma r2_eq (q : ℚ) (n : ℤ) (h1 : (n : ℚ) ≤ q * 100 + 1 / 2) (h2 : q * 100 + 1 / 2 < n + 1) :
    r2 q = (n : ℚ) / 100 := by
  unfold r2
  rw [Int.floor_eq_iff.mpr ⟨h1, h2⟩]

/-- Evaluate `r3` once the enclosing integer of `n·1000 + 1/2` is known. -/
lemma r3_eq (q : ℚ) (n : ℤ) (h1 : (n : ℚ) ≤ q * 1000 + 1 / 2) (h2 : q * 1000 + 1 / 2 < n + 1) :
    r3 q = (n : ℚ) / 1000 := by
  unfold r3
  rw [Int.floor_eq_iff.mpr ⟨h1, h2⟩]

/-- A retained-mass factor `1 - x/100` is positive whenever `x < 100`. -/
lemma fac_pos {x : ℚ} (h : x < 100) : 0 < 1 - pct x := by
  unfold pct
  have : x / 100 < 1 := (div_lt_one (by norm_num)).mpr h
  linarith

/-- The three chained stage divisions collapse to a single division by the
product of the five retained-mass factors. -/
lemma pressInput_eq (requiredPackedKg : ℚ) (press : PressStage) (polish : PolishStage)
    (packing : PackingStage) :
    pressInputCircleKg requiredPackedKg press polish packing =
      requiredPackedKg /
        ((1 - pct packing.tutPct) * ((1 - pct polish.tutPct) * (1 - pct polish.wastagePct)) *
          ((1 - pct press.tutPct) * (1 - pct press.jobWastagePct))) := by
  unfold pressInputCircleKg polishInputKalaKg packingInputKg
  rw [div_div, div_div]
  ring_nf

/-! Claim theorems. -/

/-- Claim C8: `circleWeightG(d, t) = (263/254)·d²·((t + 0.003)/0.263)` for every
diameter and thickness — the +0.003 tolerance is applied to every thickness —
and in particular `circleWeightG(7, 0.26) = (263/254)·49·(0.263/0.263)`. -/
theorem claim_C8_circleWeight :
    (∀ d t : ℚ, circleWeightG d t = 263 / 254 * d ^ 2 * ((t + 3 / 1000) / (263 / 1000)))
    ∧ circleWeightG 7 (26 / 100) = 263 / 254 * 49 * (263 / 1000 / (263 / 1000)) := by
  constructor
  · intro d t
    unfold circleWeightG effectiveThicknessMm
    ring
  · unfold circleWeightG effectiveThicknessMm
    norm_num

/-- Claim C7: the resolved circle rate is the part's own `circleRatePerKg`
whenever that optional field is present with a positive value; otherwise
(absent, or non-positive) it is `circleBaseRate + circleAddPerKg +
circleExtraAddPerKg` from the settings. -/
theorem claim_C7_resolveRate (part : PartSpec) (settings : AppSettings) :
    (∀ r : ℚ, part.circleRatePerKg = some r → 0 < r →
      resolvePartCircleRatePerKg part settings = r)
    ∧ (∀ r : ℚ, part.circleRatePerKg = some r → r ≤ 0 →
      resolvePartCircleRatePerKg part settings =
        settings.circleBaseRate + settings.circleAddPerKg + settings.circleExtraAddPerKg)
    ∧ (part.circleRatePerKg = none →
      resolvePartCircleRatePerKg part settings =
        settings.circleBaseRate + settings.circleAddPerKg + settings.circleExtraAddPerKg) := by
  refine ⟨?_, ?_, ?_⟩
  · intro r h hr
    unfold resolvePartCircleRatePerKg
    rw [h]
    exact if_pos hr
  · intro r h hr
    unfold resolvePartCircleRatePerKg fallbackCircleRate
    rw [h]
    exact if_neg (not_lt.mpr hr)
  · intro h
    unfold resolvePartCircleRatePerKg fallbackCircleRate
    rw [h]

/-- Claim C7 witness: instantiated at `itemC5.box` (explicit positive rate),
at `itemA.box` with the rate forced to 0, and at `itemA.box` (absent rate). -/
theorem claim_C7_witness :
    resolvePartCircleRatePerKg itemC5.box settingsA = rC5
    ∧ resolvePartCircleRatePerKg { itemA.box with circleRatePerKg := some 0 } settingsA = 175
    ∧ resolvePartCircleRatePerKg itemA.box settingsA = 175 := by
  refine ⟨?_, ?_, ?_⟩
  · exact (claim_C7_resolveRate itemC5.box settingsA).1 rC5 rfl (by norm_num [rC5])
  · have := (claim_C7_resolveRate { itemA.box with circleRatePerKg := some 0 } settingsA).2.1
      0 rfl le_rfl
    norm_num [settingsA] at this
    exact this
  · have := (claim_C7_resolveRate itemA.box settingsA).2.2 rfl
    norm_num [settingsA] at this
    exact this

/-- Claim C2: with every stage percentage in [0,100), the backward stage
inversion is exactly `packingInput = kg/(1 − tut/100)`,
`polishInput = packingInput/((1 − tut/100)(1 − wastage/100))`,
`pressInput = polishInput/((1 − tut/100)(1 − jobWastage/100))`; the scrap shed
at each stage is that stage's input times its tut fraction; and the total
scrap is the sum of exactly these three tut masses (wastage and job-wastage
shed no scrap). -/
theorem claim_C2_stageInversion (kg : ℚ) (part : PartSpec) (polish : PolishStage)
    (packing : PackingStage) (rate : ℚ)
    (hpk0 : 0 ≤ packing.tutPct) (hpk1 : packing.tutPct < 100)
    (hpt0 : 0 ≤ polish.tutPct) (hpt1 : polish.tutPct < 100)
    (hpw0 : 0 ≤ polish.wastagePct) (hpw1 : polish.wastagePct < 100)
    (hbt0 : 0 ≤ part.press.tutPct) (hbt1 : part.press.tutPct < 100)
    (hbj0 : 0 ≤ part.press.jobWastagePct) (hbj1 : part.press.jobWastagePct < 100) :
    packingInputKg kg packing = kg / (1 - packing.tutPct / 100)
    ∧ polishInputKalaKg kg polish packing =
        packingInputKg kg packing / ((1 - polish.tutPct / 100) * (1 - polish.wastagePct / 100))
    ∧ pressInputCircleKg kg part.press polish packing =
        polishInputKalaKg kg polish packing /
          ((1 - part.press.tutPct / 100) * (1 - part.press.jobWastagePct / 100))
    ∧ pressTutKg kg part.press polish packing =
        pressInputCircleKg kg part.press polish packing * (part.press.tutPct / 100)
    ∧ polishTutKg kg polish packing =
        polishInputKalaKg kg polish packing * (polish.tutPct / 100)
    ∧ packingTutKg kg packing = packingInputKg kg packing * (packing.tutPct / 100)
    ∧ (computePartForwardCost kg part polish packing rate).flow.scrapKg =
        pressTutKg kg part.press polish packing + polishTutKg kg polish packing +
          packingTutKg kg packing := by
  have hne : (1 : ℚ) - packing.tutPct / 100 ≠ 0 := by
    have := fac_pos hpk1
    unfold pct at this
    linarith
  refine ⟨rfl, rfl, rfl, rfl, rfl, ?_, rfl⟩
  have hne2 : (100 : ℚ) - packing.tutPct ≠ 0 := by
    intro h
    apply hne
    rw [sub_eq_zero] at h ⊢
    rw [← h]
    norm_num
  unfold packingTutKg packingInputKg pct
  field_simp
  ring

/-- Claim C2 witness: the inversion identities at 1 kg of packed output with
`itemA`'s stage percentages (press 3 % tut + 8 % job wastage, polish
2 % tut + 5 % wastage, packing 1 % tut). -/
theorem claim_C2_witness :
    packingInputKg 1 itemA.packing = 1 / (1 - itemA.packing.tutPct / 100)
    ∧ packingTutKg 1 itemA.packing = packingInputKg 1 itemA.packing * (itemA.packing.tutPct / 100)
    ∧ (computePartForwardCost 1 itemA.box itemA.polish itemA.packing 175).flow.scrapKg =
        pressTutKg 1 itemA.box.press itemA.polish itemA.packing +
          polishTutKg 1 itemA.polish itemA.packing + packingTutKg 1 itemA.packing := by
  have h := claim_C2_stageInversion 1 itemA.box itemA.polish itemA.packing 175
    (by norm_num [itemA]) (by norm_num [itemA]) (by norm_num [itemA]) (by norm_num [itemA])
    (by norm_num [itemA]) (by norm_num [itemA]) (by norm_num [itemA]) (by norm_num [itemA])
    (by norm_num [itemA]) (by norm_num [itemA])
  exact ⟨h.1, h.2.2.2.2.2.1, h.2.2.2.2.2.2⟩

/-- Claim C6: `pcsPerBag` is exactly `bagStandardKg·1000 / totalPackedG`
(`80000 / totalPackedG` at the standard 80 kg bag), it feeds the per-part
packed batch masses unrounded, those batch masses feed the forward-cost solver
unrounded, and the 2- and 3-decimal rounding appears only on the emitted
`CalcResult` fields. -/
theorem claim_C6_piecesPerBag (item : Item) (settings : AppSettings) :
    pcs item settings = settings.bagStandardKg * 1000 / totalPackedG item
    ∧ totalBoxKgPacked item settings = pcs item settings * boxAfterPolishG item / 1000
    ∧ totalCoverKgPacked item settings = pcs item settings * coverAfterPolishG item / 1000
    ∧ boxCostRes item settings =
        computePartForwardCost (totalBoxKgPacked item settings) item.box item.polish item.packing
          (boxCircleRate item settings)
    ∧ coverCostRes item settings =
        computePartForwardCost (totalCoverKgPacked item settings) item.cover item.polish
          item.packing (coverCircleRate item settings)
    ∧ (calculate item settings).pcsPerBag = r2 (pcs item settings)
    ∧ (calculate item settings).debug.pcs = r3 (pcs item settings)
    ∧ (calculate item settings).perPc.totalPackedG = r2 (totalPackedG item)
    ∧ (settings.bagStandardKg = 80 → pcs item settings = 80000 / totalPackedG item) := by
  refine ⟨rfl, rfl, rfl, rfl, rfl, rfl, rfl, rfl, ?_⟩
  intro h
  unfold pcs
  rw [h]
  norm_num

/-- Claim C6 witness: instantiated at `itemA` with the 80 kg settings. -/
theorem claim_C6_witness :
    pcs itemA settingsA = settingsA.bagStandardKg * 1000 / totalPackedG itemA
    ∧ (calculate itemA settingsA).pcsPerBag = r2 (pcs itemA settingsA)
    ∧ pcs itemA settingsA = 80000 / totalPackedG itemA := by
  have h := claim_C6_piecesPerBag itemA settingsA
  exact ⟨h.1, h.2.2.2.2.2.1, h.2.2.2.2.2.2.2.2 rfl⟩

/-- Claim C5 (amended): before rounding, the cost-breakdown identity is exact:
`finalCost = circleCost + pressCost + inductionCost + polishCost + packingCost
+ kundaCost + plasticCost − scrapCredit`, with
`finalCost = boxCost + coverCost + kundaCost + plasticCost + packingCost`,
`perKgRate = finalCost / bagStandardKg` and
`perPcRate = perKgRate · totalPackedG / 1000`; the emitted `debug.finalCost`
is the 2-decimal rounding of the exact `finalCost`. -/
theorem claim_C5_amended_exactIdentity (item : Item) (settings : AppSettings) :
    finalCost item settings =
      circleCostTotal item settings + pressCostTotal item settings +
        inductionCostTotal item settings + polishCostTotal item settings +
        packingCost item settings + kundaCost item settings + plasticCost item settings -
        scrapCreditTotal item settings
    ∧ finalCost item settings =
        boxCost item settings + coverCost item settings + kundaCost item settings +
          plasticCost item settings + packingCost item settings
    ∧ perKgRate item settings = finalCost item settings / settings.bagStandardKg
    ∧ perPcRate item settings = perKgRate item settings * (totalPackedG item / 1000)
    ∧ (calculate item settings).debug.finalCost = r2 (finalCost item settings) := by
  refine ⟨?_, rfl, rfl, rfl, rfl⟩
  unfold finalCost circleCostTotal pressCostTotal inductionCostTotal polishCostTotal
    scrapCreditTotal boxCost coverCost
  simp only [boxCostRes, coverCostRes, computePartForwardCost]
  ring

/-- Claim C3: every paid stage is billed on delivered (output) mass —
`pressCharge = pressDeliveredKalaKg·press.ratePerKg`,
`polishCharge = polishDeliveredKg·polish.ratePerKg`, induction on delivered
kala when enabled (0 otherwise, given a non-negative rate),
`circleCost = pressInputCircleKg·circleRate`; `partCost` nets the three
tut scrap credits (packing's included) and contains no packing charge, while
the packing currency charge is `bagStandardKg·packingRatePerKg`, applied once
at batch level in `finalCost`. -/
theorem claim_C3_billingConvention (kg : ℚ) (part : PartSpec) (polish : PolishStage)
    (packing : PackingStage) (rate : ℚ) (item : Item) (settings : AppSettings)
    (hind : 0 ≤ inductionRate part) :
    (computePartForwardCost kg part polish packing rate).components.pressCharge =
        pressDeliveredKalaKg kg part.press polish packing * part.press.ratePerKg
    ∧ (computePartForwardCost kg part polish packing rate).components.polishCharge =
        polishDeliveredKg kg polish packing * polish.ratePerKg
    ∧ (computePartForwardCost kg part polish packing rate).components.inductionCharge =
        (if inductionEnabled part = true then
          pressDeliveredKalaKg kg part.press polish packing * inductionRate part
        else 0)
    ∧ (computePartForwardCost kg part polish packing rate).components.circleCost =
        pressInputCircleKg kg part.press polish packing * rate
    ∧ (computePartForwardCost kg part polish packing rate).partCostExcludingFinalPackingCharge =
        (computePartForwardCost kg part polish packing rate).components.circleCost +
          (computePartForwardCost kg part polish packing rate).components.pressCharge +
          (computePartForwardCost kg part polish packing rate).components.inductionCharge +
          (computePartForwardCost kg part polish packing rate).components.polishCharge -
          ((if part.press.scrapReturn.enabled then
              pressTutKg kg part.press polish packing * part.press.scrapReturn.ratePerKg
            else 0) +
            (if polish.scrapReturn.enabled then
              polishTutKg kg polish packing * polish.scrapReturn.ratePerKg
            else 0) +
            (if packing.scrapReturn.enabled then
              packingTutKg kg packing * packing.scrapReturn.ratePerKg
            else 0))
    ∧ packingCost item settings = settings.bagStandardKg * item.packing.packingRatePerKg
    ∧ finalCost item settings =
        boxCost item settings + coverCost item settings + kundaCost item settings +
          plasticCost item settings + packingCost item settings := by
  refine ⟨rfl, rfl, ?_, rfl, rfl, rfl, rfl⟩
  by_cases he : inductionEnabled part = true
  · rw [if_pos he]
    by_cases hr : 0 < inductionRate part
    · simp only [computePartForwardCost, inductionCharge]
      rw [if_pos ⟨he, hr⟩]
    · have h0 : inductionRate part = 0 := le_antisymm (not_lt.mp hr) hind
      simp only [computePartForwardCost, inductionCharge, h0]
      simp
  · rw [if_neg he]
    simp only [computePartForwardCost, inductionCharge]
    rw [if_neg (fun hc => he hc.1)]

/-- Claim C3 witness: instantiated at 1 kg packed output with `itemB`'s box
(induction enabled at rate 12) and `itemB`'s polish/packing stages. -/
theorem claim_C3_witness :
    0 ≤ inductionRate itemB.box
    ∧ (computePartForwardCost 1 itemB.box itemB.polish itemB.packing 210).components.pressCharge =
        pressDeliveredKalaKg 1 itemB.box.press itemB.polish itemB.packing *
          itemB.box.press.ratePerKg
    ∧ (computePartForwardCost 1 itemB.box itemB.polish itemB.packing
        210).components.inductionCharge =
        (if inductionEnabled itemB.box = true then
          pressDeliveredKalaKg 1 itemB.box.press itemB.polish itemB.packing *
            inductionRate itemB.box
        else 0)
    ∧ packingCost itemB settingsB = settingsB.bagStandardKg * itemB.packing.packingRatePerKg := by
  have hind : 0 ≤ inductionRate itemB.box := by
    norm_num [inductionRate, itemB]
  have h := claim_C3_billingConvention 1 itemB.box itemB.polish itemB.packing 210 itemB settingsB
    hind
  exact ⟨hind, h.1, h.2.2.1, h.2.2.2.2.2.1⟩

/-- Claim C1 (amended): `calculate` performs no domain-error check at all —
even when the packing stage's combined loss fraction is exactly 1
(`tutPct = 100`, the case the spec requires to fail fast), it still returns a
fully-formed `CalcResult` whose independent fields carry their normal values.
(In JavaScript the flow-dependent fields of that result are `Infinity`/`NaN`;
no error path exists in `calc.ts`.) -/
theorem claim_C1_amended_noDomainCheck (item : Item) (settings : AppSettings)
    (h : item.packing.tutPct = 100) :
    (calculate item settings).debug.bagKg = settings.bagStandardKg
    ∧ (calculate item settings).debug.packingCost =
        r2 (settings.bagStandardKg * item.packing.packingRatePerKg)
    ∧ (calculate item settings).perPc.totalPackedG = r2 (totalPackedG item) :=
  ⟨rfl, rfl, rfl⟩

/-- Claim C1 counterexample: at `itemC1` (packing `tutPct = 100`, combined
loss fraction exactly 1) `calculate` does not fail: it returns a `CalcResult`
with concrete field values, so no domain error is raised and a result record
is produced. -/
theorem claim_C1_counterexample :
    itemC1.packing.tutPct = 100
    ∧ (calculate itemC1 settingsA).debug.bagKg = 80
    ∧ (calculate itemC1 settingsA).debug.packingCost = 160 := by
  refine ⟨rfl, rfl, ?_⟩
  have h : (calculate itemC1 settingsA).debug.packingCost = r2 (packingCost itemC1 settingsA) :=
    rfl
  rw [h]
  have h2 : packingCost itemC1 settingsA = 160 := by
    norm_num [packingCost, itemC1, itemA, settingsA]
  rw [h2, r2_eq 160 16000 (by norm_num) (by norm_num)]
  norm_num

/-- Claim C1 witness: the amended theorem applied at `itemC1`. -/
theorem claim_C1_witness :
    itemC1.packing.tutPct = 100
    ∧ ((calculate itemC1 settingsA).debug.bagKg = settingsA.bagStandardKg
      ∧ (calculate itemC1 settingsA).debug.packingCost =
          r2 (settingsA.bagStandardKg * itemC1.packing.packingRatePerKg)
      ∧ (calculate itemC1 settingsA).perPc.totalPackedG = r2 (totalPackedG itemC1)) :=
  ⟨rfl, claim_C1_amended_noDomainCheck itemC1 settingsA rfl⟩

/-- Raising a percentage strictly shrinks its retained-mass factor. -/
lemma fac_lt {x y : ℚ} (h : x < y) : 1 - pct y < 1 - pct x := by
  unfold pct
  have : x / 100 < y / 100 := by
    exact (div_lt_div_right (by norm_num)).mpr h
  linarith

/-- Claim C4: for a fixed positive target packed mass, strictly increasing any
single one of the five loss percentages (press tut, press job wastage, polish
tut, polish wastage, packing tut), keeping it below 100 and everything else
fixed, strictly increases the required press input (circle) mass. -/
theorem claim_C4_monotonicity (kg : ℚ) (press : PressStage) (polish : PolishStage)
    (packing : PackingStage) (hkg : 0 < kg)
    (hpk1 : packing.tutPct < 100) (hpt1 : polish.tutPct < 100) (hpw1 : polish.wastagePct < 100)
    (hbt1 : press.tutPct < 100) (hbj1 : press.jobWastagePct < 100) :
    (∀ t, press.tutPct < t → t < 100 →
      pressInputCircleKg kg press polish packing <
        pressInputCircleKg kg { press with tutPct := t } polish packing)
    ∧ (∀ t, press.jobWastagePct < t → t < 100 →
      pressInputCircleKg kg press polish packing <
        pressInputCircleKg kg { press with jobWastagePct := t } polish packing)
    ∧ (∀ t, polish.tutPct < t → t < 100 →
      pressInputCircleKg kg press polish packing <
        pressInputCircleKg kg press { polish with tutPct := t } packing)
    ∧ (∀ t, polish.wastagePct < t → t < 100 →
      pressInputCircleKg kg press polish packing <
        pressInputCircleKg kg press { polish with wastagePct := t } packing)
    ∧ (∀ t, packing.tutPct < t → t < 100 →
      pressInputCircleKg kg press polish packing <
        pressInputCircleKg kg press polish { packing with tutPct := t }) := by
  have ha : 0 < 1 - pct packing.tutPct := fac_pos hpk1
  have hb : 0 < 1 - pct polish.tutPct := fac_pos hpt1
  have hc : 0 < 1 - pct polish.wastagePct := fac_pos hpw1
  have hd : 0 < 1 - pct press.tutPct := fac_pos hbt1
  have he : 0 < 1 - pct press.jobWastagePct := fac_pos hbj1
  refine ⟨?_, ?_, ?_, ?_, ?_⟩ <;> intro t h1 h2
  · rw [pressInput_eq, pressInput_eq]
    have hd' : 0 < 1 - pct t := fac_pos h2
    refine (div_lt_div_left hkg ?_ ?_).mpr ?_
    · exact mul_pos (mul_pos ha (mul_pos hb hc)) (mul_pos hd he)
    · exact mul_pos (mul_pos ha (mul_pos hb hc)) (mul_pos hd' he)
    · exact mul_lt_mul_of_pos_left (mul_lt_mul_of_pos_right (fac_lt h1) he)
        (mul_pos ha (mul_pos hb hc))
  · rw [pressInput_eq, pressInput_eq]
    have he' : 0 < 1 - pct t := fac_pos h2
    refine (div_lt_div_left hkg ?_ ?_).mpr ?_
    · exact mul_pos (mul_pos ha (mul_pos hb hc)) (mul_pos hd he)
    · exact mul_pos (mul_pos ha (mul_pos hb hc)) (mul_pos hd he')
    · exact mul_lt_mul_of_pos_left (mul_lt_mul_of_pos_left (fac_lt h1) hd)
        (mul_pos ha (mul_pos hb hc))
  · rw [pressInput_eq, pressInput_eq]
    have hb' : 0 < 1 - pct t := fac_pos h2
    refine (div_lt_div_left hkg ?_ ?_).mpr ?_
    · exact mul_pos (mul_pos ha (mul_pos hb hc)) (mul_pos hd he)
    · exact mul_pos (mul_pos ha (mul_pos hb' hc)) (mul_pos hd he)
    · exact mul_lt_mul_of_pos_right
        (mul_lt_mul_of_pos_left (mul_lt_mul_of_pos_right (fac_lt h1) hc) ha) (mul_pos hd he)
  · rw [pressInput_eq, pressInput_eq]
    have hc' : 0 < 1 - pct t := fac_pos h2
    refine (div_lt_div_left hkg ?_ ?_).mpr ?_
    · exact mul_pos (mul_pos ha (mul_pos hb hc)) (mul_pos hd he)
    · exact mul_pos (mul_pos ha (mul_pos hb hc')) (mul_pos hd he)
    · exact mul_lt_mul_of_pos_right
        (mul_lt_mul_of_pos_left (mul_lt_mul_of_pos_left (fac_lt h1) hb) ha) (mul_pos hd he)
  · rw [pressInput_eq, pressInput_eq]
    have ha' : 0 < 1 - pct t := fac_pos h2
    refine (div_lt_div_left hkg ?_ ?_).mpr ?_
    · exact mul_pos (mul_pos ha (mul_pos hb hc)) (mul_pos hd he)
    · exact mul_pos (mul_pos ha' (mul_pos hb hc)) (mul_pos hd he)
    · exact mul_lt_mul_of_pos_right (mul_lt_mul_of_pos_right (fac_lt h1) (mul_pos hb hc))
        (mul_pos hd he)

/-- Claim C4 witness: at 1 kg with `itemA`'s stages, each of the five
percentages raised by one point strictly raises the required circle mass. -/
theorem claim_C4_witness :
    pressInputCircleKg 1 itemA.box.press itemA.polish itemA.packing <
      pressInputCircleKg 1 { itemA.box.press with tutPct := 4 } itemA.polish itemA.packing
    ∧ pressInputCircleKg 1 itemA.box.press itemA.polish itemA.packing <
      pressInputCircleKg 1 { itemA.box.press with jobWastagePct := 9 } itemA.polish itemA.packing
    ∧ pressInputCircleKg 1 itemA.box.press itemA.polish itemA.packing <
      pressInputCircleKg 1 itemA.box.press { itemA.polish with tutPct := 3 } itemA.packing
    ∧ pressInputCircleKg 1 itemA.box.press itemA.polish itemA.packing <
      pressInputCircleKg 1 itemA.box.press { itemA.polish with wastagePct := 6 } itemA.packing
    ∧ pressInputCircleKg 1 itemA.box.press itemA.polish itemA.packing <
      pressInputCircleKg 1 itemA.box.press itemA.polish { itemA.packing with tutPct := 2 } := by
  have h := claim_C4_monotonicity 1 itemA.box.press itemA.polish itemA.packing (by norm_num)
    (by norm_num [itemA]) (by norm_num [itemA]) (by norm_num [itemA]) (by norm_num [itemA])
    (by norm_num [itemA])
  exact ⟨h.1 4 (by norm_num [itemA]) (by norm_num),
    h.2.1 9 (by norm_num [itemA]) (by norm_num),
    h.2.2.1 3 (by norm_num [itemA]) (by norm_num),
    h.2.2.2.1 6 (by norm_num [itemA]) (by norm_num),
    h.2.2.2.2 2 (by norm_num [itemA]) (by norm_num)⟩

/-- An absent induction stage, a disabled one, or one with rate 0 yields a
zero induction charge. -/
lemma ind_inactive_charge (kg : ℚ) (part : PartSpec) (polish : PolishStage)
    (packing : PackingStage)
    (h : part.induction = none ∨
      ∃ i, part.induction = some i ∧ (i.enabled = false ∨ i.ratePerKg = 0)) :
    inductionCharge kg part polish packing = 0 := by
  unfold inductionCharge inductionEnabled inductionRate
  rcases h with h | ⟨i, hi, hc | hc⟩
  · simp [h]
  · simp [hi, hc]
  · simp [hi, hc]

/-- Once the induction charge is zero, the whole per-part result coincides
with the result for the same part with the induction stage removed. -/
lemma computePart_ignores_induction (kg : ℚ) (part : PartSpec) (polish : PolishStage)
    (packing : PackingStage) (rate : ℚ)
    (h : inductionCharge kg part polish packing = 0) :
    computePartForwardCost kg part polish packing rate =
      computePartForwardCost kg { part with induction := none } polish packing rate := by
  have h2 : inductionCharge kg { part with induction := none } polish packing = 0 := by
    simp [inductionCharge, inductionEnabled]
  unfold computePartForwardCost
  dsimp only
  rw [h, h2]

/-- Removing an inactive box induction stage leaves `calculate` unchanged. -/
lemma calculate_box_ind (item : Item) (settings : AppSettings)
    (h : item.box.induction = none ∨
      ∃ i, item.box.induction = some i ∧ (i.enabled = false ∨ i.ratePerKg = 0)) :
    calculate item settings =
      calculate { item with box := { item.box with induction := none } } settings := by
  have hch : inductionCharge (totalBoxKgPacked item settings) item.box item.polish item.packing
      = 0 := ind_inactive_charge _ _ _ _ h
  have hres : boxCostRes item settings =
      boxCostRes { item with box := { item.box with induction := none } } settings := by
    unfold boxCostRes
    exact computePart_ignores_induction _ _ _ _ _ hch
  simp only [calculate, circleCostTotal, pressCostTotal, inductionCostTotal, polishCostTotal,
    scrapCreditTotal, finalCost, boxCost, coverCost, perKgRate, perPcRate, kundaCost, kundaKg,
    plasticCost, polybagKg, pipeKg, packingCost]
  rw [hres]
  rfl

/-- Removing an inactive cover induction stage leaves `calculate` unchanged. -/
lemma calculate_cover_ind (item : Item) (settings : AppSettings)
    (h : item.cover.induction = none ∨
      ∃ i, item.cover.induction = some i ∧ (i.enabled = false ∨ i.ratePerKg = 0)) :
    calculate item settings =
      calculate { item with cover := { item.cover with induction := none } } settings := by
  have hch : inductionCharge (totalCoverKgPacked item settings) item.cover item.polish
      item.packing = 0 := ind_inactive_charge _ _ _ _ h
  have hres : coverCostRes item settings =
      coverCostRes { item with cover := { item.cover with induction := none } } settings := by
    unfold coverCostRes
    exact computePart_ignores_induction _ _ _ _ _ hch
  simp only [calculate, circleCostTotal, pressCostTotal, inductionCostTotal, polishCostTotal,
    scrapCreditTotal, finalCost, boxCost, coverCost, perKgRate, perPcRate, kundaCost, kundaKg,
    plasticCost, polybagKg, pipeKg, packingCost]
  rw [hres]
  rfl

/-- Claim C9: whenever a part's induction stage is absent, disabled, or has
rate 0, that part's induction charge is exactly 0 and the entire `CalcResult`
equals the result for the same item with that induction stage removed; with
both parts inactive the reported `inductionCost` is exactly 0. -/
theorem claim_C9_inductionFrame (item : Item) (settings : AppSettings) :
    ((item.box.induction = none ∨
        ∃ i, item.box.induction = some i ∧ (i.enabled = false ∨ i.ratePerKg = 0)) →
      (boxCostRes item settings).components.inductionCharge = 0
      ∧ calculate item settings =
          calculate { item with box := { item.box with induction := none } } settings)
    ∧ ((item.cover.induction = none ∨
        ∃ i, item.cover.induction = some i ∧ (i.enabled = false ∨ i.ratePerKg = 0)) →
      (coverCostRes item settings).components.inductionCharge = 0
      ∧ calculate item settings =
          calculate { item with cover := { item.cover with induction := none } } settings)
    ∧ ((item.box.induction = none ∨
        ∃ i, item.box.induction = some i ∧ (i.enabled = false ∨ i.ratePerKg = 0)) →
      (item.cover.induction = none ∨
        ∃ i, item.cover.induction = some i ∧ (i.enabled = false ∨ i.ratePerKg = 0)) →
      (calculate item settings).debug.inductionCost = 0) := by
  refine ⟨?_, ?_, ?_⟩
  · intro h
    exact ⟨ind_inactive_charge _ _ _ _ h, calculate_box_ind item settings h⟩
  · intro h
    exact ⟨ind_inactive_charge _ _ _ _ h, calculate_cover_ind item settings h⟩
  · intro hb hc
    have e : (calculate item settings).debug.inductionCost =
        r2 (inductionCostTotal item settings) := rfl
    have hzero : inductionCostTotal item settings = 0 := by
      unfold inductionCostTotal
      have h1 : (boxCostRes item settings).components.inductionCharge = 0 :=
        ind_inactive_charge _ _ _ _ hb
      have h2 : (coverCostRes item settings).components.inductionCharge = 0 :=
        ind_inactive_charge _ _ _ _ hc
      rw [h1, h2]
      norm_num
    rw [e, hzero, r2_eq 0 0 (by norm_num) (by norm_num)]
    norm_num

/-- Claim C9 witness: `itemA` with a disabled induction stage on the box and
none on the cover behaves identically to the induction-free item. -/
theorem claim_C9_witness :
    ((boxCostRes { itemA with
        box := { itemA.box with induction := some { enabled := false, ratePerKg := 10 } } }
        settingsA).components.inductionCharge = 0
      ∧ calculate { itemA with
          box := { itemA.box with induction := some { enabled := false, ratePerKg := 10 } } }
          settingsA =
        calculate { { itemA with
          box := { itemA.box with induction := some { enabled := false, ratePerKg := 10 } } } with
          box := { { itemA.box with
            induction := some { enabled := false, ratePerKg := 10 } } with
            induction := none } } settingsA)
    ∧ (calculate { itemA with
        box := { itemA.box with induction := some { enabled := false, ratePerKg := 10 } } }
        settingsA).debug.inductionCost = 0 := by
  have h := claim_C9_inductionFrame { itemA with
    box := { itemA.box with induction := some { enabled := false, ratePerKg := 10 } } } settingsA
  refine ⟨h.1 ?_, h.2.2 ?_ ?_⟩
  · exact Or.inr ⟨{ enabled := false, ratePerKg := 10 }, rfl, Or.inl rfl⟩
  · exact Or.inr ⟨{ enabled := false, ratePerKg := 10 }, rfl, Or.inl rfl⟩
  · exact Or.inl rfl

/-- Claim C10: two inputs agreeing on all geometry and mass-affecting fields
(circle sizes and thicknesses, press actual-wastage of both parts, polish
wastage, kunda enabled/weight, polybag and pipe dimensions, gauges and
pcs-per-pipe, bag standard mass) — but with arbitrary unit rates, tut/job
percentages, packing rate, scrap-return and circle-rate fields — yield
identical `perPc` weight fields and identical `pcsPerBag`. -/
theorem claim_C10_weightsIndependent (i1 i2 : Item) (s1 s2 : AppSettings)
    (h1 : i1.box.circleSizeIn = i2.box.circleSizeIn)
    (h2 : i1.box.thicknessMm = i2.box.thicknessMm)
    (h3 : i1.cover.circleSizeIn = i2.cover.circleSizeIn)
    (h4 : i1.cover.thicknessMm = i2.cover.thicknessMm)
    (h5 : i1.box.press.actualWastagePct = i2.box.press.actualWastagePct)
    (h6 : i1.cover.press.actualWastagePct = i2.cover.press.actualWastagePct)
    (h7 : i1.polish.wastagePct = i2.polish.wastagePct)
    (h8 : i1.kunda.enabled = i2.kunda.enabled)
    (h9 : i1.kunda.weightG = i2.kunda.weightG)
    (h10 : i1.bagProfile.polybag.sizeIn = i2.bagProfile.polybag.sizeIn)
    (h11 : i1.bagProfile.polybag.gauge = i2.bagProfile.polybag.gauge)
    (h12 : i1.bagProfile.pipe.widthIn = i2.bagProfile.pipe.widthIn)
    (h13 : i1.bagProfile.pipe.lengthIn = i2.bagProfile.pipe.lengthIn)
    (h14 : i1.bagProfile.pipe.gauge = i2.bagProfile.pipe.gauge)
    (h15 : i1.bagProfile.pipe.pcsPerPipe = i2.bagProfile.pipe.pcsPerPipe)
    (h16 : s1.bagStandardKg = s2.bagStandardKg) :
    (calculate i1 s1).perPc = (calculate i2 s2).perPc
    ∧ (calculate i1 s1).pcsPerBag = (calculate i2 s2).pcsPerBag := by
  have hbox : boxAfterPolishG i1 = boxAfterPolishG i2 := by
    unfold boxAfterPolishG boxAfterPressG boxCircleG
    rw [h1, h2, h5, h7]
  have hcover : coverAfterPolishG i1 = coverAfterPolishG i2 := by
    unfold coverAfterPolishG coverAfterPressG coverCircleG
    rw [h3, h4, h6, h7]
  have hkunda : kundaG i1 = kundaG i2 := by
    unfold kundaG
    rw [h8, h9]
  have hpoly : polybagG i1 = polybagG i2 := by
    unfold polybagG
    rw [h10, h11]
  have hpipe : pipePerPcG i1 = pipePerPcG i2 := by
    unfold pipePerPcG
    rw [h12, h13, h14, h15]
  have htot : totalPackedG i1 = totalPackedG i2 := by
    unfold totalPackedG
    rw [hbox, hcover, hkunda, hpoly, hpipe]
  have hpcs : pcs i1 s1 = pcs i2 s2 := by
    unfold pcs
    rw [h16, htot]
  constructor
  · simp only [calculate]
    rw [hbox, hcover, hkunda, hpoly, hpipe, htot]
  · simp only [calculate]
    rw [hpcs]

/-- Claim C10 witness: `itemA`/`settingsA` versus `itemB`/`settingsB`, which
differ in every rate, tut/job-wastage percentage, scrap-return, circle-rate
and induction field but agree on all mass-affecting fields. -/
theorem claim_C10_witness :
    (calculate itemA settingsA).perPc = (calculate itemB settingsB).perPc
    ∧ (calculate itemA settingsA).pcsPerBag = (calculate itemB settingsB).pcsPerBag :=
  claim_C10_weightsIndependent itemA itemB settingsA settingsB rfl rfl rfl rfl rfl rfl rfl rfl
    rfl rfl rfl rfl rfl rfl rfl rfl

/-- Claim C5 counterexample: `itemC5` is a valid input (all percentages 0,
positive dimensions, rates and bag mass), yet its emitted `debug.finalCost`
(50.02) differs from the sum of the emitted debug components minus scrap
credit (50.00) by 0.02 — more than the claimed 0.01 tolerance, because the
components are rounded to 2 decimals independently. -/
theorem claim_C5_counterexample :
    (calculate itemC5 settingsA).debug.finalCost -
        ((calculate itemC5 settingsA).debug.circleCost +
          (calculate itemC5 settingsA).debug.pressCost +
          (calculate itemC5 settingsA).debug.inductionCost +
          (calculate itemC5 settingsA).debug.polishCost +
          (calculate itemC5 settingsA).debug.packingCost +
          (calculate itemC5 settingsA).debug.kundaCost +
          (calculate itemC5 settingsA).debug.plasticCost -
          (calculate itemC5 settingsA).debug.scrapCredit) = 1 / 50
    ∧ (1 : ℚ) / 100 < 1 / 50 := by
  have hM : totalBoxKgPacked itemC5 settingsA = 526000 / 13277 := by
    norm_num [totalBoxKgPacked, pcs, totalPackedG, boxAfterPolishG, coverAfterPolishG,
      boxAfterPressG, coverAfterPressG, boxCircleG, coverCircleG, circleWeightG,
      effectiveThicknessMm, kundaG, polybagG, pipePerPcG, polybagWeightG, pipeWeightG, pct,
      itemC5, settingsA]
  have hMc : totalCoverKgPacked itemC5 settingsA = 526000 / 13277 := by
    norm_num [totalCoverKgPacked, pcs, totalPackedG, boxAfterPolishG, coverAfterPolishG,
      boxAfterPressG, coverAfterPressG, boxCircleG, coverCircleG, circleWeightG,
      effectiveThicknessMm, kundaG, polybagG, pipePerPcG, polybagWeightG, pipeWeightG, pct,
      itemC5, settingsA]
  have hpcs : pcs itemC5 settingsA = 508000000 / 13277 := by
    norm_num [pcs, totalPackedG, boxAfterPolishG, coverAfterPolishG, boxAfterPressG,
      coverAfterPressG, boxCircleG, coverCircleG, circleWeightG, effectiveThicknessMm, kundaG,
      polybagG, pipePerPcG, polybagWeightG, pipeWeightG, pct, itemC5, settingsA]
  have hcc : circleCostTotal itemC5 settingsA = 10004 / 1000 := by
    simp only [circleCostTotal, boxCostRes, coverCostRes, computePartForwardCost]
    rw [hM, hMc]
    norm_num [pressInputCircleKg, polishInputKalaKg, packingInputKg, pct, boxCircleRate,
      coverCircleRate, resolvePartCircleRatePerKg, rC5, itemC5, settingsA]
  have hprc : pressCostTotal itemC5 settingsA = 10004 / 1000 := by
    simp only [pressCostTotal, boxCostRes, coverCostRes, computePartForwardCost]
    rw [hM, hMc]
    norm_num [pressDeliveredKalaKg, pressInputCircleKg, polishInputKalaKg, packingInputKg, pct,
      boxCircleRate, coverCircleRate, resolvePartCircleRatePerKg, rC5, itemC5, settingsA]
  have hic : inductionCostTotal itemC5 settingsA = 0 := by
    norm_num [inductionCostTotal, boxCostRes, coverCostRes, computePartForwardCost,
      inductionCharge, inductionEnabled, inductionRate, itemC5]
  have hpoc : polishCostTotal itemC5 settingsA = 10004 / 1000 := by
    simp only [polishCostTotal, boxCostRes, coverCostRes, computePartForwardCost]
    rw [hM, hMc]
    norm_num [polishDeliveredKg, polishInputKalaKg, packingInputKg, pct, rC5, itemC5, settingsA]
  have hpkc : packingCost itemC5 settingsA = 10004 / 1000 := by
    norm_num [packingCost, itemC5, settingsA]
  have hkc : kundaCost itemC5 settingsA = 0 := by
    norm_num [kundaCost, itemC5]
  have hplc : plasticCost itemC5 settingsA = 10004 / 1000 := by
    simp only [plasticCost, polybagKg, pipeKg]
    rw [hpcs]
    norm_num [polybagG, pipePerPcG, polybagWeightG, pipeWeightG, rpC5, itemC5, settingsA]
  have hsc : scrapCreditTotal itemC5 settingsA = 0 := by
    norm_num [scrapCreditTotal, boxCostRes, coverCostRes, computePartForwardCost, itemC5]
  have hfc : finalCost itemC5 settingsA = 5002 / 100 := by
    simp only [finalCost, boxCost, coverCost, boxCostRes, coverCostRes, computePartForwardCost,
      kundaCost, plasticCost, packingCost, polybagKg, pipeKg, kundaKg]
    rw [hM, hMc, hpcs]
    norm_num [kundaG, polybagG, pipePerPcG, polybagWeightG, pipeWeightG, pct, boxCircleRate,
      coverCircleRate, resolvePartCircleRatePerKg, fallbackCircleRate, pressInputCircleKg,
      pressDeliveredKalaKg, polishInputKalaKg, polishDeliveredKg, packingInputKg, packingTutKg,
      pressTutKg, polishTutKg, inductionCharge, inductionEnabled, inductionRate, rC5, rpC5,
      itemC5, settingsA]
  have e1 : (calculate itemC5 settingsA).debug.finalCost = r2 (finalCost itemC5 settingsA) := rfl
  have e2 : (calculate itemC5 settingsA).debug.circleCost =
      r2 (circleCostTotal itemC5 settingsA) := rfl
  have e3 : (calculate itemC5 settingsA).debug.pressCost =
      r2 (pressCostTotal itemC5 settingsA) := rfl
  have e4 : (calculate itemC5 settingsA).debug.inductionCost =
      r2 (inductionCostTotal itemC5 settingsA) := rfl
  have e5 : (calculate itemC5 settingsA).debug.polishCost =
      r2 (polishCostTotal itemC5 settingsA) := rfl
  have e6 : (calculate itemC5 settingsA).debug.packingCost =
      r2 (packingCost itemC5 settingsA) := rfl
  have e7 : (calculate itemC5 settingsA).debug.kundaCost = r2 (kundaCost itemC5 settingsA) := rfl
  have e8 : (calculate itemC5 settingsA).debug.plasticCost =
      r2 (plasticCost itemC5 settingsA) := rfl
  have e9 : (calculate itemC5 settingsA).debug.scrapCredit =
      r2 (scrapCreditTotal itemC5 settingsA) := rfl
  have ra : r2 ((5002 : ℚ) / 100) = ((5002 : ℤ) : ℚ) / 100 :=
    r2_eq _ _ (by norm_num) (by norm_num)
  have rb : r2 ((10004 : ℚ) / 1000) = ((1000 : ℤ) : ℚ) / 100 :=
    r2_eq _ _ (by norm_num) (by norm_num)
  have rz : r2 (0 : ℚ) = ((0 : ℤ) : ℚ) / 100 := r2_eq _ _ (by norm_num) (by norm_num)
  constructor
  · rw [e1, e2, e3, e4, e5, e6, e7, e8, e9, hfc, hcc, hprc, hic, hpoc, hpkc, hkc, hplc, hsc,
      ra, rb, rz]
    push_cast
    norm_num
  · norm_num
